import Mathlib

/-!
Verification of the telegram-lambda three-stage video submission pipeline.

The development shallowly embeds the three AWS Lambda entry points of the
repository (telegram-webhook-handler, lambda_video_processor,
lambda_response_handler) as pure Lean functions.  The relational store is a
pair of in-memory lists (volunteers, video_submissions); network and storage
collaborators (Telegram, S3, api.video) are oracles passed in as explicit
parameters; side effects towards those collaborators are recorded in an
effect trace.  Python exceptions are `Except String`; handlers that swallow
exceptions are total functions returning the fallback value the code returns.
-/

deriving instance DecidableEq for Except

namespace TelegramLambda

/-- A row of the `volunteers` table. -/
structure Volunteer where
  id : String
  first_name : Option String := none
  last_name : Option String := none
  username : Option String := none
  phone_number : Option String := none
  phone_verified : Bool := false
  created_at : Nat := 0
  updated_at : Nat := 0
deriving Repr, DecidableEq

/-- A row of the `video_submissions` table. -/
structure Submission where
  id : String
  volunteer_id : String
  telegram_file_id : String
  status : String
  video_platform_url : Option String := none
  decline_reason : Option String := none
  notification_sent : Option Bool := none
  notification_sent_at : Option Nat := none
  created_at : Nat := 0
  updated_at : Nat := 0
deriving Repr, DecidableEq

/-- The relational store shared by the three stages. -/
structure DB where
  volunteers : List Volunteer := []
  submissions : List Submission := []
deriving Repr, DecidableEq

/-- Python `str.replace` on character lists: scan left to right, replace each
non-overlapping occurrence of `pat` by `rep`. -/
def replaceAll (pat rep : List Char) : List Char → List Char
  | [] => []
  | c :: rest =>
    if pat.isPrefixOf (c :: rest) ∧ pat ≠ [] then
      rep ++ replaceAll pat rep (rest.drop (pat.length - 1))
    else
      c :: replaceAll pat rep rest
termination_by l => l.length
decreasing_by
  · simp only [List.length_drop, List.length_cons]
    omega
  · simp only [List.length_cons]
    omega

/-- Python `str.replace` lifted to `String`. -/
def pyReplace (s old new : String) : String :=
  ⟨replaceAll old.data new.data s.data⟩

/-- Python `str.startswith` lifted to `String`. -/
def pyStartsWith (s p : String) : Bool :=
  p.data.isPrefixOf s.data

/-- `convert_database_url` (identical in all three lambda_function.py files):
rewrite the asyncpg SQLAlchemy scheme to the plain psycopg2 scheme, pass a
plain postgresql scheme through, and raise `ValueError` otherwise. -/
def convert_database_url (database_url : String) : Except String String :=
  if pyStartsWith database_url "postgresql+asyncpg://" then
    .ok (pyReplace database_url "postgresql+asyncpg://" "postgresql://")
  else if pyStartsWith database_url "postgresql://" then
    .ok database_url
  else
    .error ("Unsupported database URL format: " ++ database_url)

theorem isPrefixOf_append_self (l t : List Char) : l.isPrefixOf (l ++ t) = true := by
  rw [List.isPrefixOf_iff_prefix]
  exact List.prefix_append l t

theorem replaceAll_head (pat rep rest : List Char) (hp : pat ≠ []) :
    replaceAll pat rep (pat ++ rest) = rep ++ replaceAll pat rep rest := by
  cases pat with
  | nil => exact absurd rfl hp
  | cons p ps =>
    show replaceAll (p :: ps) rep (p :: (ps ++ rest)) = _
    rw [replaceAll]
    have hpre : (p :: ps).isPrefixOf (p :: (ps ++ rest)) = true := by
      have h := isPrefixOf_append_self (p :: ps) rest
      simp only [List.cons_append] at h
      exact h
    rw [if_pos ⟨hpre, by simp⟩]
    have hdrop : (ps ++ rest).drop ((p :: ps).length - 1) = rest := by
      simp only [List.length_cons, Nat.add_sub_cancel]
      exact List.drop_left ps rest
    rw [hdrop]

theorem pyReplace_head (rest : String) :
    pyReplace ("postgresql+asyncpg://" ++ rest) "postgresql+asyncpg://" "postgresql://"
      = "postgresql://" ++ pyReplace rest "postgresql+asyncpg://" "postgresql://" := by
  have hd : ("postgresql+asyncpg://" ++ rest).data
      = "postgresql+asyncpg://".data ++ rest.data := String.data_append _ _
  apply String.ext
  show (pyReplace _ _ _).data = ("postgresql://" ++ pyReplace rest _ _).data
  rw [String.data_append]
  simp only [pyReplace, hd]
  rw [replaceAll_head _ _ _ (by decide)]

theorem pyStartsWith_append (p t : String) : pyStartsWith (p ++ t) p = true := by
  simp only [pyStartsWith, String.data_append]
  exact isPrefixOf_append_self p.data t.data

theorem sync_not_async (s : String) (h : pyStartsWith s "postgresql://" = true) :
    pyStartsWith s "postgresql+asyncpg://" = false := by
  by_contra hc
  have h2 : pyStartsWith s "postgresql+asyncpg://" = true := by
    revert hc
    cases pyStartsWith s "postgresql+asyncpg://" <;> simp
  rw [pyStartsWith, List.isPrefixOf_iff_prefix] at h h2
  have hle : ("postgresql://".data).length ≤ ("postgresql+asyncpg://".data).length := by decide
  have := List.prefix_of_prefix_length_le h h2 hle
  exact absurd this (by decide)

/-- C7: a `postgresql+asyncpg://` connection string is rewritten to the
`postgresql://` scheme, a `postgresql://` string is returned unchanged, and
any other scheme raises `ValueError`, in all three copies of
`convert_database_url`. -/
theorem c7_database_url_normalization (rest s : String) :
    (convert_database_url ("postgresql+asyncpg://" ++ rest)
        = .ok ("postgresql://" ++ pyReplace rest "postgresql+asyncpg://" "postgresql://")
      ∧ pyStartsWith ("postgresql://" ++ pyReplace rest "postgresql+asyncpg://" "postgresql://")
          "postgresql://" = true)
    ∧ (pyStartsWith s "postgresql://" = true → convert_database_url s = .ok s)
    ∧ (pyStartsWith s "postgresql+asyncpg://" = false →
        pyStartsWith s "postgresql://" = false →
        convert_database_url s = .error ("Unsupported database URL format: " ++ s)) := by
  refine ⟨⟨?_, pyStartsWith_append _ _⟩, ?_, ?_⟩
  · rw [convert_database_url, if_pos (pyStartsWith_append _ rest), pyReplace_head]
  · intro h
    rw [convert_database_url, if_neg (by rw [sync_not_async s h]; simp), if_pos h]
  · intro h1 h2
    rw [convert_database_url, if_neg (by rw [h1]; simp), if_neg (by rw [h2]; simp)]

/-- C7 witness: concrete evaluations of the three normalization cases. -/
theorem c7_database_url_normalization_witness :
    (convert_database_url ("postgresql+asyncpg://" ++ "u:p@host/db")
        = .ok ("postgresql://" ++ pyReplace "u:p@host/db" "postgresql+asyncpg://" "postgresql://"))
    ∧ convert_database_url "postgresql://u:p@host/db" = .ok "postgresql://u:p@host/db"
    ∧ convert_database_url "mysql://u:p@host/db"
        = .error ("Unsupported database URL format: " ++ "mysql://u:p@host/db") := by
  exact ⟨(c7_database_url_normalization "u:p@host/db" "x").1.1,
    (c7_database_url_normalization "x" "postgresql://u:p@host/db").2.1 (by decide),
    (c7_database_url_normalization "x" "mysql://u:p@host/db").2.2 (by decide) (by decide)⟩

theorem append_ne_empty_left (s t : String) (h : s ≠ "") : s ++ t ≠ "" := by
  intro hc
  apply h
  apply String.ext
  have hd : (s ++ t).data = [] := by rw [hc]
  rw [String.data_append] at hd
  have := List.append_eq_nil.mp hd
  exact this.1

/-- A nullable text column holding a non-empty string. -/
def optNE : Option String → Prop
  | none => False
  | some u => u ≠ ""

instance (oo : Option String) : Decidable (optNE oo) :=
  match oo with
  | none => isFalse (fun h => h)
  | some u => inferInstanceAs (Decidable (u ≠ ""))

/-- Terminal-consistency invariant of one Submission row: PENDING_REVIEW
rows carry a non-empty video_platform_url and DECLINED rows carry a
non-empty decline_reason. -/
def SubInv (s : Submission) : Prop :=
  (s.status = "PENDING_REVIEW" → optNE s.video_platform_url) ∧
  (s.status = "DECLINED" → optNE s.decline_reason)

instance (s : Submission) : Decidable (SubInv s) := by
  unfold SubInv
  infer_instance

/-- Terminal consistency over the whole submissions table. -/
def DBInv (db : DB) : Prop := ∀ s ∈ db.submissions, SubInv s

instance (db : DB) : Decidable (DBInv db) := by
  unfold DBInv
  infer_instance

namespace Processor

/-- Environment variables read by lambda_video_processor/lambda_function.py. -/
structure Env where
  database_url : Option String := none
  s3_bucket : Option String := none
  api_video_key : Option String := none
  response_handler_fn : Option String := none
deriving Repr, DecidableEq

/-- Outcomes of the external collaborators during one publish-stage
invocation: the S3 object download (byte count on success), the api.video
container creation (videoId on success, the empty string standing for an
absent or falsy videoId in the response), and the api.video source upload
(optional player url from the response assets). -/
structure Oracles where
  s3Download : Except String Nat := .ok 1
  apiCreate : Except String String := .ok "vid123"
  apiUpload : Except String (Option String) := .ok none
deriving Repr, DecidableEq

/-- Externally visible calls made by the publish stage. -/
inductive Effect
  | s3DownloadCall (key : String)
  | apiCreateCall
  | apiUploadCall
  | s3DeleteCall (key : String)
  | triggerResponse (submission_id volunteer_id st message : String)
deriving Repr, DecidableEq

/-- `get_submission_data`: fetch the submission joined with its volunteer;
raises when `DATABASE_URL` is unset or malformed, returns `none` when the
join produces no row. -/
def get_submission_data (env : Env) (db : DB) (submission_id : String) :
    Except String (Option Submission) :=
  match env.database_url with
  | none => .error "DATABASE_URL environment variable not set"
  | some u =>
    match convert_database_url u with
    | .error m => .error m
    | .ok _ =>
      .ok (match db.submissions.find? (fun s => s.id == submission_id) with
        | none => none
        | some s =>
          if db.volunteers.any (fun v => v.id == s.volunteer_id) then some s else none)

/-- `download_video_from_s3`: raise on missing bucket, wrap any S3 failure,
and raise on a zero-byte download.  The inner zero-size exception is caught
by the same function and re-wrapped with the S3 prefix, as in the source. -/
def download_video_from_s3 (env : Env) (o : Oracles) (s3_key : String) :
    List Effect × Except String Nat :=
  match env.s3_bucket with
  | none => ([], .error "S3_BUCKET_NAME environment variable not set")
  | some _ =>
    match o.s3Download with
    | .error m => ([.s3DownloadCall s3_key], .error ("Failed to download from S3: " ++ m))
    | .ok size =>
      if size == 0 then
        ([.s3DownloadCall s3_key], .error "Failed to download from S3: Downloaded file is empty")
      else
        ([.s3DownloadCall s3_key], .ok size)

/-- `upload_to_api_video`: create a container then upload the file; HTTP-level
failures are wrapped with the HTTP prefix, a falsy videoId with the generic
prefix; a falsy player url falls back to the embed url built from videoId. -/
def upload_to_api_video (env : Env) (o : Oracles) : List Effect × Except String String :=
  match env.api_video_key with
  | none => ([], .error "API_VIDEO_KEY environment variable not set")
  | some _ =>
    match o.apiCreate with
    | .error m => ([.apiCreateCall], .error ("api.video HTTP upload failed: " ++ m))
    | .ok videoId =>
      if videoId == "" then
        ([.apiCreateCall], .error "api.video upload failed: Failed to get videoId from response")
      else
        match o.apiUpload with
        | .error m => ([.apiCreateCall, .apiUploadCall], .error ("api.video HTTP upload failed: " ++ m))
        | .ok player =>
          ([.apiCreateCall, .apiUploadCall],
            .ok (match player with
              | some p => if p == "" then "https://embed.api.video/vod/" ++ videoId else p
              | none => "https://embed.api.video/vod/" ++ videoId))

/-- `update_submission_with_video_url`: conditional update on id AND
volunteer_id; zero affected rows raises and leaves the store untouched. -/
def update_submission_with_video_url (env : Env) (db : DB)
    (submission_id video_url volunteer_id : String) (now : Nat) : Except String DB :=
  match env.database_url with
  | none => .error "AttributeError: NoneType object has no attribute startswith"
  | some u =>
    match convert_database_url u with
    | .error m => .error m
    | .ok _ =>
      if db.submissions.any (fun s => s.id == submission_id && s.volunteer_id == volunteer_id) then
        .ok { db with submissions := db.submissions.map (fun s =>
          if s.id == submission_id && s.volunteer_id == volunteer_id then
            { s with video_platform_url := some video_url, status := "PENDING_REVIEW",
                     updated_at := now }
          else s) }
      else
        .error ("Failed to update submission " ++ submission_id
          ++ " - record not found or volunteer mismatch")

/-- `update_submission_status`: unconditional status/decline_reason write
keyed by id only; every exception (including a missing or malformed
DATABASE_URL) is caught and logged, leaving the store unchanged. -/
def update_submission_status (env : Env) (db : DB)
    (submission_id st : String) (reason : Option String) (now : Nat) : DB :=
  match env.database_url with
  | none => db
  | some u =>
    match convert_database_url u with
    | .error _ => db
    | .ok _ =>
      { db with submissions := db.submissions.map (fun s =>
        if s.id == submission_id then
          { s with status := st, decline_reason := reason, updated_at := now }
        else s) }

/-- `trigger_response_handler`: fire-and-forget stage trigger; a missing
target function name is a logged no-op. -/
def trigger_response_handler (env : Env) (submission_id volunteer_id st message : String) :
    List Effect :=
  match env.response_handler_fn with
  | none => []
  | some _ => [.triggerResponse submission_id volunteer_id st message]

/-- The fixed success notification message of the publish stage. -/
def successMsg : String :=
  "Your video has been processed and is now under review by our team!"

/-- The fixed failure notification message of the publish stage. -/
def failureMsg : String :=
  "Sorry, there was an error processing your video. Please try again."

/-- The success payload returned by `process_video_submission`. -/
structure PvResult where
  submission_id : String
  volunteer_id : String
  api_video_url : String
deriving Repr, DecidableEq

/-- Store, effect trace and outcome of one `process_video_submission` run. -/
structure ProcOut where
  db : DB
  effects : List Effect
  result : Except String PvResult
deriving Repr, DecidableEq

/-- The `except` branch of `process_video_submission`: set the submission
DECLINED with the failure text, trigger the notification stage with the
fixed error message, and re-raise. -/
def declineAndNotify (env : Env) (db : DB) (submission_id volunteer_id e : String)
    (now : Nat) (pre : List Effect) : ProcOut :=
  { db := update_submission_status env db submission_id "DECLINED" (some e) now
  , effects := pre ++ trigger_response_handler env submission_id volunteer_id "error" failureMsg
  , result := .error e }

/-- `process_video_submission`: verify the record, check volunteer integrity,
download from S3, upload to api.video, conditionally persist the url, clean
up staging, and trigger the notification stage; any failure runs the decline
path and re-raises. -/
def process_video_submission (env : Env) (o : Oracles) (db : DB)
    (submission_id volunteer_id s3_key _video_title : String) (now : Nat) : ProcOut :=
  match get_submission_data env db submission_id with
  | .error e => declineAndNotify env db submission_id volunteer_id e now []
  | .ok none =>
    declineAndNotify env db submission_id volunteer_id
      ("Submission " ++ submission_id ++ " not found in database") now []
  | .ok (some sub) =>
    if sub.volunteer_id == volunteer_id then
      match download_video_from_s3 env o s3_key with
      | (dEff, .error e) => declineAndNotify env db submission_id volunteer_id e now dEff
      | (dEff, .ok _size) =>
        match upload_to_api_video env o with
        | (uEff, .error e) =>
          declineAndNotify env db submission_id volunteer_id e now (dEff ++ uEff)
        | (uEff, .ok url) =>
          match update_submission_with_video_url env db submission_id url volunteer_id now with
          | .error e =>
            declineAndNotify env db submission_id volunteer_id e now (dEff ++ uEff)
          | .ok db2 =>
            { db := db2
            , effects := dEff ++ uEff ++ [Effect.s3DeleteCall s3_key]
                ++ trigger_response_handler env submission_id volunteer_id "success" successMsg
            , result := .ok { submission_id := submission_id, volunteer_id := volunteer_id,
                              api_video_url := url } }
    else
      declineAndNotify env db submission_id volunteer_id
        ("Data mismatch: Expected volunteer " ++ volunteer_id ++ ", got " ++ sub.volunteer_id)
        now []

/-- Trigger payload of the publish stage. -/
structure PEvent where
  submission_id : String
  volunteer_id : String
  s3_key : String
  video_title : Option String := none
deriving Repr, DecidableEq

/-- Entry-point response shape `{statusCode, body: {status, ...}}`. -/
structure Response where
  statusCode : Nat
  st : String
  message : Option String := none
deriving Repr, DecidableEq

/-- Store, effect trace and response of one publish-stage invocation. -/
structure HandlerOut where
  db : DB
  effects : List Effect
  response : Response
deriving Repr, DecidableEq

/-- `event.get("video_title", f"Video from user {volunteer_id}")`. -/
def lambda_title (ev : PEvent) : String :=
  match ev.video_title with
  | some t => t
  | none => "Video from user " ++ ev.volunteer_id

/-- The `try/except` wrapper of the publish-stage `lambda_handler` around the
outcome of `process_video_submission`. -/
def handler_wrap (env : Env) (ev : PEvent) (now : Nat) (out : ProcOut) : HandlerOut :=
  match out.result with
  | .ok _ =>
    { db := out.db, effects := out.effects, response := { statusCode := 200, st := "success" } }
  | .error e =>
    { db := update_submission_status env out.db ev.submission_id "DECLINED"
        (some ("Processing failed: " ++ e)) now
    , effects := out.effects
    , response := { statusCode := 500, st := "error", message := some e } }

/-- `lambda_handler` of the publish stage: on success return 200; on failure
write DECLINED once more with the `Processing failed:` prefix and return a
500 error response to the invoking environment. -/
def lambda_handler (env : Env) (o : Oracles) (db : DB) (ev : PEvent) (now : Nat) : HandlerOut :=
  handler_wrap env ev now
    (process_video_submission env o db ev.submission_id ev.volunteer_id ev.s3_key
      (lambda_title ev) now)

theorem convert_error_ne (u m : String) (h : convert_database_url u = .error m) : m ≠ "" := by
  unfold convert_database_url at h
  split at h
  · exact absurd h (by simp)
  · split at h
    · exact absurd h (by simp)
    · simp only [Except.error.injEq] at h
      rw [← h]
      exact append_ne_empty_left _ _ (by decide)

theorem get_error_ne (env : Env) (db : DB) (sid e : String)
    (h : get_submission_data env db sid = .error e) : e ≠ "" := by
  unfold get_submission_data at h
  split at h
  · simp only [Except.error.injEq] at h
    rw [← h]; decide
  · rename_i u heq
    split at h
    · rename_i m hcv
      simp only [Except.error.injEq] at h
      rw [← h]
      exact convert_error_ne u m hcv
    · simp at h

theorem download_error_ne (env : Env) (o : Oracles) (key : String) (eff : List Effect)
    (e : String) (h : download_video_from_s3 env o key = (eff, .error e)) : e ≠ "" := by
  unfold download_video_from_s3 at h
  split at h
  · simp only [Prod.mk.injEq, Except.error.injEq] at h
    rw [← h.2]; decide
  · rename_i b heq
    split at h
    · rename_i m hdl
      simp only [Prod.mk.injEq, Except.error.injEq] at h
      rw [← h.2]
      exact append_ne_empty_left _ _ (by decide)
    · rename_i size hdl
      split at h
      · simp only [Prod.mk.injEq, Except.error.injEq] at h
        rw [← h.2]; decide
      · simp at h

theorem upload_error_ne (env : Env) (o : Oracles) (eff : List Effect) (e : String)
    (h : upload_to_api_video env o = (eff, .error e)) : e ≠ "" := by
  unfold upload_to_api_video at h
  split at h
  · simp only [Prod.mk.injEq, Except.error.injEq] at h
    rw [← h.2]; decide
  · rename_i k heq
    split at h
    · rename_i m hc
      simp only [Prod.mk.injEq, Except.error.injEq] at h
      rw [← h.2]
      exact append_ne_empty_left _ _ (by decide)
    · rename_i videoId hc
      split at h
      · simp only [Prod.mk.injEq, Except.error.injEq] at h
        rw [← h.2]; decide
      · split at h
        · rename_i m hu
          simp only [Prod.mk.injEq, Except.error.injEq] at h
          rw [← h.2]
          exact append_ne_empty_left _ _ (by decide)
        · simp at h

theorem upload_ok_ne (env : Env) (o : Oracles) (eff : List Effect) (url : String)
    (h : upload_to_api_video env o = (eff, .ok url)) : url ≠ "" := by
  unfold upload_to_api_video at h
  split at h
  · simp at h
  · rename_i k heq
    split at h
    · simp at h
    · rename_i videoId hc
      split at h
      · simp at h
      · rename_i hvz
        split at h
        · simp at h
        · rename_i player hu
          simp only [Prod.mk.injEq, Except.ok.injEq] at h
          rw [← h.2]
          cases player with
          | none => exact append_ne_empty_left _ _ (by decide)
          | some p =>
            show (if (p == "") = true then "https://embed.api.video/vod/" ++ videoId else p) ≠ ""
            by_cases hp : (p == "") = true
            · rw [if_pos hp]
              exact append_ne_empty_left _ _ (by decide)
            · rw [if_neg hp]
              intro hc2
              exact hp (by rw [hc2]; rfl)

theorem update_url_error_ne (env : Env) (db : DB) (sid url vid : String) (now : Nat)
    (e : String) (h : update_submission_with_video_url env db sid url vid now = .error e) :
    e ≠ "" := by
  unfold update_submission_with_video_url at h
  split at h
  · simp only [Except.error.injEq] at h
    rw [← h]; decide
  · rename_i u heq
    split at h
    · rename_i m hcv
      simp only [Except.error.injEq] at h
      rw [← h]
      exact convert_error_ne u m hcv
    · split at h
      · simp at h
      · simp only [Except.error.injEq] at h
        rw [← h]
        exact append_ne_empty_left _ _ (append_ne_empty_left _ _ (by decide))

/-- Every failing run of `process_video_submission` is exactly the decline
path with a non-empty failure text. -/
theorem process_error_shape (env : Env) (o : Oracles) (db : DB)
    (sid vid key title : String) (now : Nat) (e : String)
    (h : (process_video_submission env o db sid vid key title now).result = .error e) :
    (∃ pre, process_video_submission env o db sid vid key title now
        = declineAndNotify env db sid vid e now pre) ∧ e ≠ "" := by
  unfold process_video_submission at h ⊢
  split at h
  · rename_i e0 heq
    simp only [declineAndNotify, Except.error.injEq] at h
    subst h
    exact ⟨⟨[], rfl⟩, get_error_ne env db sid e0 heq⟩
  · rename_i heq
    simp only [declineAndNotify, Except.error.injEq] at h
    subst h
    exact ⟨⟨[], rfl⟩, append_ne_empty_left _ _ (append_ne_empty_left _ _ (by decide))⟩
  · rename_i sub heq
    split at h
    · rename_i hv
      rw [if_pos hv]
      split at h
      · rename_i dEff e0 hd
        simp only [declineAndNotify, Except.error.injEq] at h
        subst h
        exact ⟨⟨dEff, rfl⟩, download_error_ne env o key dEff e0 hd⟩
      · rename_i dEff size hd
        split at h
        · rename_i uEff e0 hu
          simp only [declineAndNotify, Except.error.injEq] at h
          subst h
          exact ⟨⟨dEff ++ uEff, rfl⟩, upload_error_ne env o uEff e0 hu⟩
        · rename_i uEff url hu
          split at h
          · rename_i e0 hup
            simp only [declineAndNotify, Except.error.injEq] at h
            subst h
            exact ⟨⟨dEff ++ uEff, rfl⟩, update_url_error_ne env db sid url vid now e0 hup⟩
          · rename_i db2 hup
            simp at h
    · rename_i hv
      rw [if_neg hv]
      simp only [declineAndNotify, Except.error.injEq] at h
      subst h
      exact ⟨⟨[], rfl⟩,
        append_ne_empty_left _ _ (append_ne_empty_left _ _ (append_ne_empty_left _ _ (by decide)))⟩

/-- Every successful run of `process_video_submission` got its store from a
successful conditional url update with a non-empty url. -/
theorem process_ok_shape (env : Env) (o : Oracles) (db : DB)
    (sid vid key title : String) (now : Nat) (r : PvResult)
    (h : (process_video_submission env o db sid vid key title now).result = .ok r) :
    ∃ db2, update_submission_with_video_url env db sid r.api_video_url vid now = .ok db2
      ∧ (process_video_submission env o db sid vid key title now).db = db2
      ∧ r.api_video_url ≠ "" := by
  unfold process_video_submission at h ⊢
  split at h
  · simp [declineAndNotify] at h
  · simp [declineAndNotify] at h
  · rename_i sub heq
    split at h
    · rename_i hv
      rw [if_pos hv]
      split at h
      · simp [declineAndNotify] at h
      · rename_i dEff size hd
        split at h
        · simp [declineAndNotify] at h
        · rename_i uEff url hu
          split at h
          · simp [declineAndNotify] at h
          · rename_i db2 hup
            simp only [Except.ok.injEq] at h
            subst h
            exact ⟨db2, hup, rfl, upload_ok_ne env o uEff url hu⟩
    · rename_i hv
      simp [declineAndNotify] at h

/-- With a valid DATABASE_URL, `update_submission_status` rewrites exactly
the rows keyed by the submission id. -/
theorem find?_update_status (env : Env) (db : DB) (sid st : String)
    (r : Option String) (now : Nat) (dbu cu : String)
    (hdb : env.database_url = some dbu) (hcv : convert_database_url dbu = .ok cu) :
    (update_submission_status env db sid st r now).submissions.find? (fun s => s.id == sid)
      = (db.submissions.find? (fun s => s.id == sid)).map
          (fun s => { s with status := st, decline_reason := r, updated_at := now }) := by
  unfold update_submission_status
  simp only [hdb, hcv]
  rw [List.find?_map]
  have hpf : ((fun s => s.id == sid) ∘ (fun s : Submission =>
      if (s.id == sid) = true then
        { s with status := st, decline_reason := r, updated_at := now }
      else s)) = (fun s : Submission => s.id == sid) := by
    funext s
    simp only [Function.comp_apply]
    by_cases hx : (s.id == sid) = true
    · rw [if_pos hx]
    · rw [if_neg hx]
  rw [hpf]
  cases hf : db.submissions.find? (fun s => s.id == sid) with
  | none => rfl
  | some a =>
    have ha := List.find?_some hf
    simp only [Option.map_some']
    rw [if_pos ha]

/-- `update_submission_status` writing DECLINED with a non-empty reason
preserves terminal consistency. -/
theorem update_status_declined_inv (env : Env) (db : DB) (sid e : String) (now : Nat)
    (h : DBInv db) (he : e ≠ "") :
    DBInv (update_submission_status env db sid "DECLINED" (some e) now) := by
  unfold update_submission_status
  split
  · exact h
  · split
    · exact h
    · intro s hs
      simp only [List.mem_map] at hs
      obtain ⟨a, ha, rfl⟩ := hs
      by_cases hid : (a.id == sid) = true
      · rw [if_pos hid]
        exact ⟨fun hpr => by simp at hpr, fun _ => he⟩
      · rw [if_neg hid]
        exact h a ha

/-- A successful `update_submission_with_video_url` with a non-empty url
preserves terminal consistency. -/
theorem update_url_inv (env : Env) (db : DB) (sid url vid : String) (now : Nat) (db2 : DB)
    (h : DBInv db) (hu : url ≠ "")
    (hup : update_submission_with_video_url env db sid url vid now = .ok db2) :
    DBInv db2 := by
  unfold update_submission_with_video_url at hup
  split at hup
  · simp at hup
  · rename_i u heq
    split at hup
    · simp at hup
    · split at hup
      · simp only [Except.ok.injEq] at hup
        subst hup
        intro s hs
        simp only [List.mem_map] at hs
        obtain ⟨a, ha, rfl⟩ := hs
        by_cases hid : (a.id == sid && a.volunteer_id == vid) = true
        · rw [if_pos hid]
          exact ⟨fun _ => hu, fun hde => by simp at hde⟩
        · rw [if_neg hid]
          exact h a ha
      · simp at hup

/-- `process_video_submission` preserves terminal consistency. -/
theorem process_inv (env : Env) (o : Oracles) (db : DB)
    (sid vid key title : String) (now : Nat) (h : DBInv db) :
    DBInv (process_video_submission env o db sid vid key title now).db := by
  cases hres : (process_video_submission env o db sid vid key title now).result with
  | error e =>
    obtain ⟨⟨pre, hshape⟩, hne⟩ := process_error_shape env o db sid vid key title now e hres
    rw [hshape]
    exact update_status_declined_inv env db sid e now h hne
  | ok r =>
    obtain ⟨db2, hup, hdb, hne⟩ := process_ok_shape env o db sid vid key title now r hres
    rw [hdb]
    exact update_url_inv env db sid r.api_video_url vid now db2 h hne hup

/-- The publish-stage entry point preserves terminal consistency. -/
theorem handler_inv (env : Env) (o : Oracles) (db : DB) (ev : PEvent) (now : Nat)
    (h : DBInv db) : DBInv (lambda_handler env o db ev now).db := by
  unfold lambda_handler handler_wrap
  split
  · exact process_inv env o db ev.submission_id ev.volunteer_id ev.s3_key (lambda_title ev) now h
  · rename_i e heq
    have hp := process_inv env o db ev.submission_id ev.volunteer_id ev.s3_key
      (lambda_title ev) now h
    exact update_status_declined_inv env _ ev.submission_id ("Processing failed: " ++ e) now hp
      (append_ne_empty_left _ _ (by decide))

/-- `update_submission_status` never touches the url column of any row. -/
theorem update_status_urls (env : Env) (db : DB) (sid st : String)
    (r : Option String) (now : Nat) :
    (update_submission_status env db sid st r now).submissions.map Submission.video_platform_url
      = db.submissions.map Submission.video_platform_url := by
  unfold update_submission_status
  split
  · rfl
  · split
    · rfl
    · rw [List.map_map]
      apply List.map_congr_left
      intro a _
      by_cases hx : (a.id == sid) = true
      · rw [Function.comp_apply, if_pos hx]
      · rw [Function.comp_apply, if_neg hx]

/-- Concrete fixture: a fully configured publish-stage environment. -/
def exEnv : Env :=
  { database_url := some "postgresql://db", s3_bucket := some "bucket"
  , api_video_key := some "apikey", response_handler_fn := some "fn3" }

/-- Concrete fixture: a PROCESSING submission owned by volunteer v1. -/
def exSub : Submission :=
  { id := "s1", volunteer_id := "v1", telegram_file_id := "f1", status := "PROCESSING" }

/-- Concrete fixture: the registered volunteer v1. -/
def exVol : Volunteer := { id := "v1" }

/-- Concrete fixture: store holding volunteer v1 and submission s1. -/
def exDB : DB := { volunteers := [exVol], submissions := [exSub] }

/-- Concrete fixture: collaborators that all succeed. -/
def exOracles : Oracles := {}

/-- Concrete fixture: S3 hands back a zero-byte object. -/
def exOraclesZero : Oracles := { s3Download := .ok 0 }

/-- Concrete fixture: the api.video source upload fails. -/
def exOraclesUploadFail : Oracles :=
  { s3Download := .ok 5, apiCreate := .ok "vidX", apiUpload := .error "boom" }

/-- Concrete fixture: a publish-stage trigger payload for s1/v1. -/
def exEv : PEvent :=
  { submission_id := "s1", volunteer_id := "v1", s3_key := "k1", video_title := some "t" }

/-- C1 counterexample: with submission s1 owned by v1 in status PROCESSING, a
publish-stage invocation whose payload names volunteer v2 raises the
integrity failure, yet the record's status does not stay PROCESSING: the
stage's own failure handler rewrites it to DECLINED, so the claim that the
status field is left unchanged fails on this input. -/
theorem c1_integrity_counterexample :
    ((process_video_submission exEnv exOracles exDB "s1" "v2" "k1" "t" 5).result
        = .error "Data mismatch: Expected volunteer v2, got v1")
    ∧ exDB.submissions.map Submission.status = ["PROCESSING"]
    ∧ (process_video_submission exEnv exOracles exDB "s1" "v2" "k1" "t" 5).db.submissions.map
        Submission.status = ["DECLINED"] :=
  ⟨rfl, rfl, rfl⟩

/-- C1 (amended): on a volunteer-id mismatch the publish stage raises the
integrity failure and applies no part of the publish update — no video url
is written anywhere and the mismatch branch performs no api.video call; the
stage's standard failure handling then sets the record's status to DECLINED
with the mismatch reason, rather than leaving the status unchanged. -/
theorem c1_integrity_amended (env : Env) (o : Oracles) (db : DB)
    (sid vid key title : String) (now : Nat) (sub : Submission)
    (hget : get_submission_data env db sid = .ok (some sub))
    (hvm : (sub.volunteer_id == vid) = false) :
    (process_video_submission env o db sid vid key title now).result
        = .error ("Data mismatch: Expected volunteer " ++ vid ++ ", got " ++ sub.volunteer_id)
    ∧ (process_video_submission env o db sid vid key title now).db
        = update_submission_status env db sid "DECLINED"
            (some ("Data mismatch: Expected volunteer " ++ vid ++ ", got " ++ sub.volunteer_id))
            now
    ∧ (process_video_submission env o db sid vid key title now).db.submissions.map
        Submission.video_platform_url = db.submissions.map Submission.video_platform_url
    ∧ (process_video_submission env o db sid vid key title now).effects
        = trigger_response_handler env sid vid "error" failureMsg := by
  have hproc : process_video_submission env o db sid vid key title now
      = declineAndNotify env db sid vid
          ("Data mismatch: Expected volunteer " ++ vid ++ ", got " ++ sub.volunteer_id) now [] := by
    unfold process_video_submission
    split
    · rename_i e0 heq
      rw [hget] at heq
      simp at heq
    · rename_i heq
      rw [hget] at heq
      simp at heq
    · rename_i sub2 heq
      rw [hget] at heq
      simp only [Except.ok.injEq, Option.some.injEq] at heq
      subst heq
      rw [if_neg (by simp [hvm])]
  refine ⟨by rw [hproc]; rfl, by rw [hproc]; rfl, ?_, by rw [hproc]; simp [declineAndNotify]⟩
  rw [hproc]
  show (update_submission_status env db sid "DECLINED" _ now).submissions.map
      Submission.video_platform_url = _
  exact update_status_urls env db sid "DECLINED" _ now

/-- C1 witness: the amended statement evaluated on the concrete mismatch. -/
theorem c1_integrity_amended_witness :
    (process_video_submission exEnv exOracles exDB "s1" "v2" "k1" "t" 5).result
        = .error ("Data mismatch: Expected volunteer " ++ "v2" ++ ", got " ++ exSub.volunteer_id)
    ∧ (process_video_submission exEnv exOracles exDB "s1" "v2" "k1" "t" 5).db
        = update_submission_status exEnv exDB "s1" "DECLINED"
            (some ("Data mismatch: Expected volunteer " ++ "v2" ++ ", got " ++ exSub.volunteer_id))
            5
    ∧ (process_video_submission exEnv exOracles exDB "s1" "v2" "k1" "t" 5).db.submissions.map
        Submission.video_platform_url = exDB.submissions.map Submission.video_platform_url
    ∧ (process_video_submission exEnv exOracles exDB "s1" "v2" "k1" "t" 5).effects
        = trigger_response_handler exEnv "s1" "v2" "error" failureMsg :=
  c1_integrity_amended exEnv exOracles exDB "s1" "v2" "k1" "t" 5 exSub rfl rfl

/-- C4: when the staged payload downloads with zero bytes the publish stage
aborts with the empty-download failure, and neither the api.video container
creation nor the api.video upload is ever attempted. -/
theorem c4_zero_byte_guard (env : Env) (o : Oracles) (db : DB)
    (sid vid key title : String) (now : Nat) (sub : Submission) (bkt : String)
    (hget : get_submission_data env db sid = .ok (some sub))
    (hvm : (sub.volunteer_id == vid) = true)
    (hbkt : env.s3_bucket = some bkt)
    (hdl : o.s3Download = .ok 0) :
    (process_video_submission env o db sid vid key title now).result
        = .error "Failed to download from S3: Downloaded file is empty"
    ∧ Effect.apiCreateCall ∉ (process_video_submission env o db sid vid key title now).effects
    ∧ Effect.apiUploadCall ∉ (process_video_submission env o db sid vid key title now).effects := by
  have hd : download_video_from_s3 env o key
      = ([Effect.s3DownloadCall key],
          .error "Failed to download from S3: Downloaded file is empty") := by
    unfold download_video_from_s3
    split
    · rename_i heq
      rw [hbkt] at heq
      simp at heq
    · rename_i b heq
      split
      · rename_i m heq2
        rw [hdl] at heq2
        simp at heq2
      · rename_i size heq2
        rw [hdl] at heq2
        simp only [Except.ok.injEq] at heq2
        subst heq2
        simp
  have hproc : process_video_submission env o db sid vid key title now
      = declineAndNotify env db sid vid "Failed to download from S3: Downloaded file is empty"
          now [Effect.s3DownloadCall key] := by
    unfold process_video_submission
    split
    · rename_i e0 heq
      rw [hget] at heq
      simp at heq
    · rename_i heq
      rw [hget] at heq
      simp at heq
    · rename_i sub2 heq
      rw [hget] at heq
      simp only [Except.ok.injEq, Option.some.injEq] at heq
      subst heq
      rw [if_pos hvm]
      split
      · rename_i dEff e0 heq2
        rw [hd] at heq2
        simp only [Prod.mk.injEq, Except.error.injEq] at heq2
        rw [← heq2.1, ← heq2.2]
      · rename_i dEff size heq2
        rw [hd] at heq2
        simp at heq2
  refine ⟨by rw [hproc]; rfl, ?_, ?_⟩
  · rw [hproc]
    simp only [declineAndNotify]
    unfold trigger_response_handler
    split
    · simp
    · simp
  · rw [hproc]
    simp only [declineAndNotify]
    unfold trigger_response_handler
    split
    · simp
    · simp

/-- C4 witness: the guard evaluated on a concrete zero-byte download. -/
theorem c4_zero_byte_guard_witness :
    (process_video_submission exEnv exOraclesZero exDB "s1" "v1" "k1" "t" 5).result
        = .error "Failed to download from S3: Downloaded file is empty"
    ∧ Effect.apiCreateCall
        ∉ (process_video_submission exEnv exOraclesZero exDB "s1" "v1" "k1" "t" 5).effects
    ∧ Effect.apiUploadCall
        ∉ (process_video_submission exEnv exOraclesZero exDB "s1" "v1" "k1" "t" 5).effects :=
  c4_zero_byte_guard exEnv exOraclesZero exDB "s1" "v1" "k1" "t" 5 exSub "bucket" rfl rfl rfl rfl

/-- C5: when any step of a publish-stage run fails, the submission row is set
DECLINED with the failure text as decline_reason, the notification stage is
triggered with the error outcome and the fixed remediation message, the
failure is re-raised by the processing routine, and the entry point reports
a 500 error response after rewriting the decline reason with the
`Processing failed:` prefix. -/
theorem c5_failure_path (env : Env) (o : Oracles) (db : DB) (ev : PEvent) (now : Nat)
    (e dbu cu fn : String) (sub0 : Submission)
    (hdb : env.database_url = some dbu)
    (hcv : convert_database_url dbu = .ok cu)
    (hfn : env.response_handler_fn = some fn)
    (hsub : db.submissions.find? (fun s => s.id == ev.submission_id) = some sub0)
    (herr : (process_video_submission env o db ev.submission_id ev.volunteer_id ev.s3_key
        (lambda_title ev) now).result = .error e) :
    ((process_video_submission env o db ev.submission_id ev.volunteer_id ev.s3_key
        (lambda_title ev) now).db.submissions.find? (fun s => s.id == ev.submission_id)
      = some { sub0 with status := "DECLINED", decline_reason := some e, updated_at := now })
    ∧ Effect.triggerResponse ev.submission_id ev.volunteer_id "error" failureMsg
        ∈ (process_video_submission env o db ev.submission_id ev.volunteer_id ev.s3_key
            (lambda_title ev) now).effects
    ∧ (lambda_handler env o db ev now).response.statusCode = 500
    ∧ (lambda_handler env o db ev now).response.st = "error"
    ∧ ((lambda_handler env o db ev now).db.submissions.find?
          (fun s => s.id == ev.submission_id)
        = some { sub0 with
                  status := "DECLINED",
                  decline_reason := some ("Processing failed: " ++ e),
                  updated_at := now }) := by
  obtain ⟨⟨pre, hshape⟩, hne⟩ := process_error_shape env o db ev.submission_id ev.volunteer_id
    ev.s3_key (lambda_title ev) now e herr
  have hfind1 : (process_video_submission env o db ev.submission_id ev.volunteer_id ev.s3_key
      (lambda_title ev) now).db.submissions.find? (fun s => s.id == ev.submission_id)
      = some { sub0 with status := "DECLINED", decline_reason := some e, updated_at := now } := by
    rw [hshape]
    show (update_submission_status env db ev.submission_id "DECLINED" (some e) now).submissions.find?
        (fun s => s.id == ev.submission_id) = _
    rw [find?_update_status env db ev.submission_id "DECLINED" (some e) now dbu cu hdb hcv, hsub]
    rfl
  refine ⟨hfind1, ?_, ?_, ?_, ?_⟩
  · rw [hshape]
    simp only [declineAndNotify]
    unfold trigger_response_handler
    simp only [hfn]
    simp [List.mem_append]
  · unfold lambda_handler handler_wrap
    simp only [herr]
  · unfold lambda_handler handler_wrap
    simp only [herr]
  · unfold lambda_handler handler_wrap
    simp only [herr]
    rw [find?_update_status env _ ev.submission_id "DECLINED"
      (some ("Processing failed: " ++ e)) now dbu cu hdb hcv, hfind1]
    rfl

/-- C5 witness: the failure path evaluated on a concrete upload failure. -/
theorem c5_failure_path_witness :
    ((process_video_submission exEnv exOraclesUploadFail exDB exEv.submission_id
        exEv.volunteer_id exEv.s3_key (lambda_title exEv) 5).db.submissions.find?
          (fun s => s.id == exEv.submission_id)
      = some { exSub with
                status := "DECLINED",
                decline_reason := some "api.video HTTP upload failed: boom",
                updated_at := 5 })
    ∧ Effect.triggerResponse exEv.submission_id exEv.volunteer_id "error" failureMsg
        ∈ (process_video_submission exEnv exOraclesUploadFail exDB exEv.submission_id
            exEv.volunteer_id exEv.s3_key (lambda_title exEv) 5).effects
    ∧ (lambda_handler exEnv exOraclesUploadFail exDB exEv 5).response.statusCode = 500
    ∧ (lambda_handler exEnv exOraclesUploadFail exDB exEv 5).response.st = "error"
    ∧ ((lambda_handler exEnv exOraclesUploadFail exDB exEv 5).db.submissions.find?
          (fun s => s.id == exEv.submission_id)
        = some { exSub with
                  status := "DECLINED",
                  decline_reason := some ("Processing failed: "
                    ++ "api.video HTTP upload failed: boom"),
                  updated_at := 5 }) :=
  c5_failure_path exEnv exOraclesUploadFail exDB exEv 5
    "api.video HTTP upload failed: boom" "postgresql://db" "postgresql://db" "fn3" exSub
    rfl rfl rfl rfl rfl

end Processor

namespace Webhook

/-- Substring scan: does `needle` occur contiguously in the list? -/
def listIsInfix (needle : List Char) : List Char → Bool
  | [] => needle.isPrefixOf []
  | c :: rest => needle.isPrefixOf (c :: rest) || listIsInfix needle rest

/-- Python `in` on strings (substring containment). -/
def pyIn (needle hay : String) : Bool :=
  listIsInfix needle.data hay.data

/-- Python `a or b` over two optional strings, where `None` and the empty
string are falsy. -/
def pyOrStr (a b : Option String) : Option String :=
  match a with
  | some s => if s == "" then b else some s
  | none => b

/-- `file_path.split(".")[-1] if "." in file_path else "mp4"`. -/
def file_extension_of (file_path : String) : String :=
  if pyIn "." file_path then (file_path.splitOn ".").getLastD "mp4" else "mp4"

/-- Environment variables read by telegram-webhook-handler/lambda_function.py. -/
structure Env where
  database_url : Option String := none
  telegram_token : Option String := none
  s3_bucket : Option String := none
  video_processor_fn : Option String := none
deriving Repr, DecidableEq

/-- Outcomes of the external collaborators during one intake invocation: a
transport failure of the registration lookup, of the registration upsert, or
of the connection opened for video processing, and the Telegram file fetch
plus S3 staging relay (the resolved telegram file path on success). -/
structure Oracles where
  lookupFail : Bool := false
  registerFail : Bool := false
  videoConnFail : Option String := none
  relay : Except String String := .ok "videos/file_1.mp4"
deriving Repr, DecidableEq

/-- Externally visible calls made by the intake stage. -/
inductive Effect
  | sendRegistrationRequest (chat_id : String) (request_contact : Bool)
  | sendRegistrationSuccess (chat_id : String)
  | sendRegistrationError (chat_id : String)
  | sendHelp (chat_id : String)
  | s3Put (key : String)
  | triggerVideoProcessor (submission_id volunteer_id s3_key : String)
deriving Repr, DecidableEq

/-- Telegram contact payload. -/
structure Contact where
  phone_number : Option String := none
  user_id : Option Int := none
deriving Repr, DecidableEq

/-- Telegram chat object (`str()` is applied to the id where used). -/
structure Chat where
  id : Int
  first_name : Option String := none
  last_name : Option String := none
  username : Option String := none
deriving Repr, DecidableEq

/-- Telegram `from` user object. -/
structure UserData where
  first_name : Option String := none
  last_name : Option String := none
  username : Option String := none
deriving Repr, DecidableEq

/-- Telegram video payload. -/
structure Video where
  file_id : String
deriving Repr, DecidableEq

/-- Telegram document payload. -/
structure Document where
  file_id : String
  mime_type : Option String := none
deriving Repr, DecidableEq

/-- Telegram message (the fields read by the intake stage). -/
structure Message where
  chat : Chat
  from_user : Option UserData := none
  contact : Option Contact := none
  video : Option Video := none
  document : Option Document := none
  text : Option String := none
deriving Repr, DecidableEq

/-- The intake result dictionaries returned by `process_telegram_update`. -/
inductive UpdateResult
  | no_message
  | registration_completed (phone_number : Option String) (chat_id : String)
  | registration_failed
  | registration_required (chat_id : String)
  | duplicate (submission_id : String)
  | video_success (submission_id volunteer_id s3_key : String)
  | help_sent
  | unhandled_message
deriving Repr, DecidableEq

/-- `send_simple_message`: skipped when the bot token is absent. -/
def send_simple_message (env : Env) (eff : Effect) : List Effect :=
  match env.telegram_token with
  | none => []
  | some _ => [eff]

/-- `send_registration_request`: the registration prompt whose reply keyboard
carries a `request_contact: True` button; skipped when the token is absent. -/
def send_registration_request (env : Env) (chat_id : String) : List Effect :=
  match env.telegram_token with
  | none => []
  | some _ => [.sendRegistrationRequest chat_id true]

/-- `check_volunteer_exists`: `None` when DATABASE_URL is absent or
malformed, when the database transport fails, or when no row matches. -/
def check_volunteer_exists (env : Env) (o : Oracles) (db : DB) (chat_id : String) :
    Option Volunteer :=
  match env.database_url with
  | none => none
  | some u =>
    match convert_database_url u with
    | .error _ => none
    | .ok _ =>
      if o.lookupFail then none
      else db.volunteers.find? (fun v => v.id == chat_id)

/-- `complete_user_registration`: upsert of the volunteer row keyed by id,
setting phone number and phone_verified; every failure returns `False`. -/
def complete_user_registration (env : Env) (o : Oracles) (db : DB)
    (chat_id : String) (phone_number : Option String) (chat_data : Chat)
    (user_data : UserData) (now : Nat) : DB × Bool :=
  match env.database_url with
  | none => (db, false)
  | some u =>
    match convert_database_url u with
    | .error _ => (db, false)
    | .ok _ =>
      if o.registerFail then (db, false)
      else if db.volunteers.any (fun v => v.id == chat_id) then
        ({ db with volunteers := db.volunteers.map (fun v =>
          if v.id == chat_id then
            { v with phone_number := phone_number, phone_verified := true, updated_at := now }
          else v) }, true)
      else
        ({ db with volunteers := db.volunteers ++
          [{ id := chat_id
           , first_name := pyOrStr chat_data.first_name user_data.first_name
           , last_name := pyOrStr chat_data.last_name user_data.last_name
           , username := pyOrStr chat_data.username user_data.username
           , phone_number := phone_number
           , phone_verified := true
           , created_at := now
           , updated_at := now }] }, true)

/-- The video payload selection: a document whose mime type contains
`video`, else a plain video message. -/
def extract_video_data (m : Message) : Option String :=
  match m.document with
  | some doc =>
    if pyIn "video" (doc.mime_type.getD "") then some doc.file_id
    else
      match m.video with
      | some v => some v.file_id
      | none => none
  | none =>
    match m.video with
    | some v => some v.file_id
    | none => none

/-- `download_video_to_s3`: resolve the Telegram file, stage it under
`temp_videos/<submission_id>.<ext>`, raising on missing configuration or a
transport failure. -/
def download_video_to_s3 (env : Env) (o : Oracles) (_file_id submission_id : String) :
    List Effect × Except String String :=
  match env.telegram_token, env.s3_bucket with
  | some _, some _ =>
    match o.relay with
    | .error m => ([], .error m)
    | .ok file_path =>
      ([.s3Put ("temp_videos/" ++ submission_id ++ "." ++ file_extension_of file_path)],
        .ok ("temp_videos/" ++ submission_id ++ "." ++ file_extension_of file_path))
  | _, _ => ([], .error "Missing environment variables")

/-- `process_video_from_registered_user`: duplicate lookup on the telegram
file id before any insert; on a fresh id insert a PROCESSING row, commit,
stage the payload, and fire the publish-stage trigger when configured. -/
def process_video_from_registered_user (env : Env) (o : Oracles) (db : DB)
    (volunteer : Volunteer) (file_id uuid : String) (now : Nat) :
    DB × List Effect × Except String UpdateResult :=
  match env.database_url with
  | none => (db, [], .error "AttributeError: NoneType object has no attribute startswith")
  | some u =>
    match convert_database_url u with
    | .error m => (db, [], .error m)
    | .ok _ =>
      match o.videoConnFail with
      | some m => (db, [], .error m)
      | none =>
        match db.submissions.find? (fun s => s.telegram_file_id == file_id) with
        | some existing => (db, [], .ok (.duplicate existing.id))
        | none =>
          match download_video_to_s3 env o file_id uuid with
          | (eff, .error m) =>
            ({ db with submissions := db.submissions ++
              [{ id := uuid, volunteer_id := volunteer.id, telegram_file_id := file_id
               , status := "PROCESSING", created_at := now, updated_at := now }] },
              eff, .error m)
          | (eff, .ok s3_key) =>
            match env.video_processor_fn with
            | some _ =>
              ({ db with submissions := db.submissions ++
                [{ id := uuid, volunteer_id := volunteer.id, telegram_file_id := file_id
                 , status := "PROCESSING", created_at := now, updated_at := now }] },
                eff ++ [.triggerVideoProcessor uuid volunteer.id s3_key],
                .ok (.video_success uuid volunteer.id s3_key))
            | none =>
              ({ db with submissions := db.submissions ++
                [{ id := uuid, volunteer_id := volunteer.id, telegram_file_id := file_id
                 , status := "PROCESSING", created_at := now, updated_at := now }] },
                eff, .ok (.video_success uuid volunteer.id s3_key))

/-- `process_telegram_update`: registration on contact share, the
registration gate, video intake for registered users, and the help text. -/
def process_telegram_update (env : Env) (o : Oracles) (db : DB) (update : Option Message)
    (uuid : String) (now : Nat) : DB × List Effect × Except String UpdateResult :=
  match update with
  | none => (db, [], .ok .no_message)
  | some message =>
    match message.contact with
    | some contact =>
      match complete_user_registration env o db
          (match contact.user_id with
            | some uid => toString uid
            | none => toString message.chat.id)
          contact.phone_number message.chat
          (match message.from_user with
            | some u2 => u2
            | none => {}) now with
      | (db1, true) =>
        (db1, send_simple_message env (.sendRegistrationSuccess (toString message.chat.id)),
          .ok (.registration_completed contact.phone_number
            (match contact.user_id with
              | some uid => toString uid
              | none => toString message.chat.id)))
      | (db1, false) =>
        (db1, send_simple_message env (.sendRegistrationError (toString message.chat.id)),
          .ok .registration_failed)
    | none =>
      match check_volunteer_exists env o db (toString message.chat.id) with
      | none =>
        (db, send_registration_request env (toString message.chat.id),
          .ok (.registration_required (toString message.chat.id)))
      | some volunteer =>
        match extract_video_data message with
        | some file_id => process_video_from_registered_user env o db volunteer file_id uuid now
        | none =>
          match message.text with
          | some _ =>
            (db, send_simple_message env (.sendHelp (toString message.chat.id)), .ok .help_sent)
          | none => (db, [], .ok .unhandled_message)

/-- The intake stage only ever inserts PROCESSING rows, so it preserves
terminal consistency. -/
theorem pvfru_inv (env : Env) (o : Oracles) (db : DB) (volunteer : Volunteer)
    (file_id uuid : String) (now : Nat) (h : DBInv db) :
    DBInv (process_video_from_registered_user env o db volunteer file_id uuid now).1 := by
  have hnew : ∀ s ∈ db.submissions ++
      [{ id := uuid, volunteer_id := volunteer.id, telegram_file_id := file_id
       , status := "PROCESSING", created_at := now, updated_at := now : Submission }],
      SubInv s := by
    intro s hs
    rcases List.mem_append.mp hs with hs1 | hs2
    · exact h s hs1
    · rcases List.mem_singleton.mp hs2 with rfl
      exact ⟨fun hpr => by simp at hpr, fun hde => by simp at hde⟩
  unfold process_video_from_registered_user
  split
  · exact h
  · split
    · exact h
    · split
      · exact h
      · split
        · exact h
        · split
          · exact hnew
          · split
            · exact hnew
            · exact hnew

/-- The registration upsert never touches the submissions table, so the
whole intake entry point preserves terminal consistency. -/
theorem process_update_inv (env : Env) (o : Oracles) (db : DB) (update : Option Message)
    (uuid : String) (now : Nat) (h : DBInv db) :
    DBInv (process_telegram_update env o db update uuid now).1 := by
  have hreg : ∀ cid ph cd ud, DBInv (complete_user_registration env o db cid ph cd ud now).1 := by
    intro cid ph cd ud
    unfold complete_user_registration
    split
    · exact h
    · split
      · exact h
      · split
        · exact h
        · split
          · exact h
          · exact h
  unfold process_telegram_update
  split
  · exact h
  · split
    · split
      · rename_i heq
        have h2 := congrArg Prod.fst heq
        simp at h2
        rw [← h2]
        exact hreg _ _ _ _
      · rename_i heq
        have h2 := congrArg Prod.fst heq
        simp at h2
        rw [← h2]
        exact hreg _ _ _ _
    · split
      · exact h
      · split
        · exact pvfru_inv env o db _ _ uuid now h
        · split
          · exact h
          · exact h

/-- C2: a second intake for the same telegram file id finds the record
created by the first intake before any insert, creates no new record, stages
nothing, and returns the duplicate marker referencing the first submission
id; so at most one record is ever created for that file id. -/
theorem c2_duplicate_intake (env : Env) (o1 o2 : Oracles) (db : DB) (v1 v2 : Volunteer)
    (fid u1 u2 dbu cu : String) (n1 n2 : Nat)
    (hdb : env.database_url = some dbu)
    (hcv : convert_database_url dbu = .ok cu)
    (hc1 : o1.videoConnFail = none) (hc2 : o2.videoConnFail = none)
    (hnodup : db.submissions.find? (fun s => s.telegram_file_id == fid) = none) :
    (process_video_from_registered_user env o1 db v1 fid u1 n1).1
        = { db with submissions := db.submissions ++
            [{ id := u1, volunteer_id := v1.id, telegram_file_id := fid
             , status := "PROCESSING", created_at := n1, updated_at := n1 }] }
    ∧ process_video_from_registered_user env o2
        (process_video_from_registered_user env o1 db v1 fid u1 n1).1 v2 fid u2 n2
      = ((process_video_from_registered_user env o1 db v1 fid u1 n1).1, [],
          .ok (.duplicate u1)) := by
  have hfind2 : (db.submissions ++
      [{ id := u1, volunteer_id := v1.id, telegram_file_id := fid
       , status := "PROCESSING", created_at := n1, updated_at := n1 : Submission }]).find?
        (fun s => s.telegram_file_id == fid)
      = some { id := u1, volunteer_id := v1.id, telegram_file_id := fid
             , status := "PROCESSING", created_at := n1, updated_at := n1 } := by
    rw [List.find?_append, hnodup]
    simp
  have h1 : (process_video_from_registered_user env o1 db v1 fid u1 n1).1
      = { db with submissions := db.submissions ++
          [{ id := u1, volunteer_id := v1.id, telegram_file_id := fid
           , status := "PROCESSING", created_at := n1, updated_at := n1 }] } := by
    unfold process_video_from_registered_user
    simp only [hdb, hcv, hc1, hnodup]
    split
    · rfl
    · split
      · rfl
      · rfl
  have hrun2 : process_video_from_registered_user env o2
      { db with submissions := db.submissions ++
        [{ id := u1, volunteer_id := v1.id, telegram_file_id := fid
         , status := "PROCESSING", created_at := n1, updated_at := n1 }] } v2 fid u2 n2
      = ({ db with submissions := db.submissions ++
          [{ id := u1, volunteer_id := v1.id, telegram_file_id := fid
           , status := "PROCESSING", created_at := n1, updated_at := n1 }] }, [],
          .ok (.duplicate u1)) := by
    unfold process_video_from_registered_user
    simp only [hdb, hcv, hc2, hfind2]
  exact ⟨h1, by rw [h1]; exact hrun2⟩

/-- Shared shape of the registration-gate run: when the lookup answers
not-registered and no contact is attached, the intake sends the prompt and
stops. -/
theorem prompt_run (env : Env) (o : Oracles) (db : DB) (message : Message)
    (uuid : String) (now : Nat) (tok : String)
    (hcontact : message.contact = none)
    (htok : env.telegram_token = some tok)
    (hcve : check_volunteer_exists env o db (toString message.chat.id) = none) :
    process_telegram_update env o db (some message) uuid now
      = (db, [Effect.sendRegistrationRequest (toString message.chat.id) true],
          .ok (.registration_required (toString message.chat.id))) := by
  unfold process_telegram_update
  simp only [hcontact, hcve]
  unfold send_registration_request
  simp only [htok]

/-- C3: a video event from a chat with no Volunteer row creates no
submission, stages nothing, sends the registration prompt whose keyboard
requests a contact share, and returns the registration-required outcome. -/
theorem c3_registration_gate (env : Env) (o : Oracles) (db : DB) (message : Message)
    (uuid : String) (now : Nat) (dbu cu tok fid : String)
    (hcontact : message.contact = none)
    (_hvid : extract_video_data message = some fid)
    (hdb : env.database_url = some dbu)
    (hcv : convert_database_url dbu = .ok cu)
    (htok : env.telegram_token = some tok)
    (hlk : o.lookupFail = false)
    (hnone : db.volunteers.find? (fun v => v.id == toString message.chat.id) = none) :
    process_telegram_update env o db (some message) uuid now
      = (db, [Effect.sendRegistrationRequest (toString message.chat.id) true],
          .ok (.registration_required (toString message.chat.id))) := by
  apply prompt_run env o db message uuid now tok hcontact htok
  unfold check_volunteer_exists
  simp [hdb, hcv, hlk, hnone]

/-- C9: the registration lookup collapses a missing connection string and
any transport failure into the not-registered answer, so a video event from
a registered volunteer during such a failure yields the registration prompt
and no submission — the very output an unregistered chat receives. -/
theorem c9_lookup_failure_gate (env env2 : Env) (o : Oracles) (db : DB)
    (message : Message) (uuid : String) (now : Nat)
    (v : Volunteer) (dbu cu tok fid : String)
    (hcontact : message.contact = none)
    (_hvid : extract_video_data message = some fid)
    (hdb : env.database_url = some dbu) (hcv : convert_database_url dbu = .ok cu)
    (htok : env.telegram_token = some tok)
    (_hreg : v ∈ db.volunteers) (_hvidm : v.id = toString message.chat.id)
    (hfail : o.lookupFail = true)
    (henv2 : env2.database_url = none) :
    check_volunteer_exists env o db (toString message.chat.id) = none
    ∧ (∀ (o3 : Oracles) (db3 : DB) (cid : String),
        check_volunteer_exists env2 o3 db3 cid = none)
    ∧ process_telegram_update env o db (some message) uuid now
        = (db, [Effect.sendRegistrationRequest (toString message.chat.id) true],
            .ok (.registration_required (toString message.chat.id)))
    ∧ (∀ (o4 : Oracles) (db4 : DB) (uuid4 : String) (now4 : Nat),
        o4.lookupFail = false →
        db4.volunteers.find? (fun w => w.id == toString message.chat.id) = none →
        (process_telegram_update env o4 db4 (some message) uuid4 now4).2
          = (process_telegram_update env o db (some message) uuid now).2) := by
  have hcve : check_volunteer_exists env o db (toString message.chat.id) = none := by
    unfold check_volunteer_exists
    simp [hdb, hcv, hfail]
  have hrun := prompt_run env o db message uuid now tok hcontact htok hcve
  refine ⟨hcve, ?_, hrun, ?_⟩
  · intro o3 db3 cid
    unfold check_volunteer_exists
    simp [henv2]
  · intro o4 db4 uuid4 now4 h4 hn4
    have hcve4 : check_volunteer_exists env o4 db4 (toString message.chat.id) = none := by
      unfold check_volunteer_exists
      simp [hdb, hcv, h4, hn4]
    rw [prompt_run env o4 db4 message uuid4 now4 tok hcontact htok hcve4, hrun]

/-- Concrete fixture: a fully configured intake environment. -/
def wEnv : Env :=
  { database_url := some "postgresql://db", telegram_token := some "tok"
  , s3_bucket := some "bucket", video_processor_fn := some "fn2" }

/-- Concrete fixture: an intake environment with no connection string. -/
def wEnvNoDb : Env := { telegram_token := some "tok" }

/-- Concrete fixture: a video message from chat 7. -/
def wMsgVideo : Message := { chat := { id := 7 }, video := some { file_id := "f1" } }

/-- Concrete fixture: the registered volunteer of chat 7. -/
def wVol : Volunteer := { id := "7" }

/-- Concrete fixture: store with volunteer 7 registered and no submissions. -/
def wDBreg : DB := { volunteers := [wVol] }

/-- Concrete fixture: empty store. -/
def wDBempty : DB := {}

/-- Concrete fixture: intake collaborators that all succeed. -/
def wOr : Oracles := {}

/-- Concrete fixture: the registration lookup transport fails. -/
def wOrFail : Oracles := { lookupFail := true }

/-- C2 witness: the duplicate path evaluated on a concrete double intake. -/
theorem c2_duplicate_intake_witness :
    (process_video_from_registered_user wEnv wOr wDBreg wVol "f1" "uuid1" 1).1
        = { wDBreg with submissions := wDBreg.submissions ++
            [{ id := "uuid1", volunteer_id := wVol.id, telegram_file_id := "f1"
             , status := "PROCESSING", created_at := 1, updated_at := 1 }] }
    ∧ process_video_from_registered_user wEnv wOr
        (process_video_from_registered_user wEnv wOr wDBreg wVol "f1" "uuid1" 1).1
        wVol "f1" "uuid2" 2
      = ((process_video_from_registered_user wEnv wOr wDBreg wVol "f1" "uuid1" 1).1, [],
          .ok (.duplicate "uuid1")) :=
  c2_duplicate_intake wEnv wOr wOr wDBreg wVol wVol "f1" "uuid1" "uuid2"
    "postgresql://db" "postgresql://db" 1 2 rfl rfl rfl rfl rfl

/-- C3 witness: the registration gate evaluated on a concrete unregistered
chat sending a video. -/
theorem c3_registration_gate_witness :
    process_telegram_update wEnv wOr wDBempty (some wMsgVideo) "uuid1" 3
      = (wDBempty, [Effect.sendRegistrationRequest (toString wMsgVideo.chat.id) true],
          .ok (.registration_required (toString wMsgVideo.chat.id))) :=
  c3_registration_gate wEnv wOr wDBempty wMsgVideo "uuid1" 3
    "postgresql://db" "postgresql://db" "tok" "f1" rfl rfl rfl rfl rfl rfl rfl

/-- C9 witness: the lookup-failure gate evaluated on a concrete registered
chat whose lookup transport fails. -/
theorem c9_lookup_failure_gate_witness :
    check_volunteer_exists wEnv wOrFail wDBreg (toString wMsgVideo.chat.id) = none
    ∧ (∀ (o3 : Oracles) (db3 : DB) (cid : String),
        check_volunteer_exists wEnvNoDb o3 db3 cid = none)
    ∧ process_telegram_update wEnv wOrFail wDBreg (some wMsgVideo) "uuid1" 3
        = (wDBreg, [Effect.sendRegistrationRequest (toString wMsgVideo.chat.id) true],
            .ok (.registration_required (toString wMsgVideo.chat.id)))
    ∧ (∀ (o4 : Oracles) (db4 : DB) (uuid4 : String) (now4 : Nat),
        o4.lookupFail = false →
        db4.volunteers.find? (fun w => w.id == toString wMsgVideo.chat.id) = none →
        (process_telegram_update wEnv o4 db4 (some wMsgVideo) uuid4 now4).2
          = (process_telegram_update wEnv wOrFail wDBreg (some wMsgVideo) "uuid1" 3).2) :=
  c9_lookup_failure_gate wEnv wEnvNoDb wOrFail wDBreg wMsgVideo "uuid1" 3 wVol
    "postgresql://db" "postgresql://db" "tok" "f1" rfl rfl rfl rfl rfl
    (by decide) (by decide) rfl rfl

end Webhook

namespace Responder

/-- Environment variables read by lambda_response_handler/lambda_function.py. -/
structure Env where
  telegram_token : Option String := none
  database_url : Option String := none
deriving Repr, DecidableEq

/-- Outcome of the Telegram sendMessage call: a requests-level transport
failure, an `ok:false` API answer with its optional description, or a sent
message id. -/
inductive TgSend
  | networkError (m : String)
  | apiError (description : Option String)
  | sent (message_id : Nat)
deriving Repr, DecidableEq

/-- Collaborator outcomes during one notification invocation. -/
structure Oracles where
  tgSend : TgSend := .sent 1
  detailsFail : Bool := false
deriving Repr, DecidableEq

/-- The structured result dictionary of `send_telegram_response`. -/
structure SendResult where
  sent : Bool
  message_id : Option Nat := none
  error : Option String := none
  chat_id : String := ""
  st : String := ""
deriving Repr, DecidableEq

/-- `get_submission_details`: the joined submission row, with every failure
(including missing configuration) swallowed into the empty dictionary. -/
def get_submission_details (env : Env) (o : Oracles) (db : DB) (submission_id : String) :
    Option Submission :=
  match env.database_url with
  | none => none
  | some u =>
    match convert_database_url u with
    | .error _ => none
    | .ok _ =>
      if o.detailsFail then none
      else
        match db.submissions.find? (fun s => s.id == submission_id) with
        | none => none
        | some s =>
          if db.volunteers.any (fun v => v.id == s.volunteer_id) then some s else none

/-- `send_telegram_response`: deliver the rendered outcome text over the
Telegram API; every exception — the missing-token raise included — is caught
and converted into a structured `sent:false` result.  (The rendered message
text of format_success_message / format_error_message is presentation-only
per the spec scope and is not modelled.) -/
def send_telegram_response (env : Env) (o : Oracles) (db : DB)
    (volunteer_id submission_id st _message : String) : SendResult :=
  match env.telegram_token with
  | none =>
    { sent := false, error := some "TELEGRAM_BOT_TOKEN environment variable not set"
    , chat_id := volunteer_id, st := st }
  | some _ =>
    match get_submission_details env o db submission_id with
    | _ =>
      match o.tgSend with
      | .networkError m =>
        { sent := false, error := some ("Network error: " ++ m)
        , chat_id := volunteer_id, st := st }
      | .apiError description =>
        { sent := false, error := some (description.getD "Unknown error")
        , chat_id := volunteer_id, st := st }
      | .sent message_id =>
        { sent := true, message_id := some message_id
        , chat_id := volunteer_id, st := st }

/-- `update_notification_status`: write the delivery boolean and set the
timestamp to now exactly when the notification was sent, else to NULL;
every failure (missing configuration included) is swallowed. -/
def update_notification_status (env : Env) (db : DB) (submission_id : String)
    (notification_sent : Bool) (now : Nat) : DB :=
  match env.database_url with
  | none => db
  | some u =>
    match convert_database_url u with
    | .error _ => db
    | .ok _ =>
      { db with submissions := db.submissions.map (fun s =>
        if s.id == submission_id then
          { s with
              notification_sent := some notification_sent,
              notification_sent_at := if notification_sent then some now else none,
              updated_at := now }
        else s) }

/-- Trigger payload of the notification stage. -/
structure REvent where
  submission_id : String
  volunteer_id : String
  st : String
  message : String
deriving Repr, DecidableEq

/-- Store, send result and response of one notification invocation. -/
structure RHandlerOut where
  db : DB
  result : SendResult
  response : Processor.Response
deriving Repr, DecidableEq

/-- `lambda_handler` of the notification stage: send, record the delivery
boolean, and answer 200; exceptions would surface as `.error`, but every
callee catches its own. -/
def resp_lambda_handler (env : Env) (o : Oracles) (db : DB) (ev : REvent) (now : Nat) :
    Except String RHandlerOut :=
  .ok
    { db := update_notification_status env db ev.submission_id
        (send_telegram_response env o db ev.volunteer_id ev.submission_id ev.st ev.message).sent
        now
    , result := send_telegram_response env o db ev.volunteer_id ev.submission_id ev.st ev.message
    , response := { statusCode := 200, st := "success" } }

/-- With a valid DATABASE_URL, `update_notification_status` rewrites exactly
the rows keyed by the submission id. -/
theorem find?_update_notification (env : Env) (db : DB) (sid : String) (b : Bool)
    (now : Nat) (dbu cu : String)
    (hdb : env.database_url = some dbu) (hcv : convert_database_url dbu = .ok cu) :
    (update_notification_status env db sid b now).submissions.find? (fun s => s.id == sid)
      = (db.submissions.find? (fun s => s.id == sid)).map
          (fun s => { s with
            notification_sent := some b,
            notification_sent_at := if b then some now else none,
            updated_at := now }) := by
  unfold update_notification_status
  simp only [hdb, hcv]
  rw [List.find?_map]
  have hpf : ((fun s => s.id == sid) ∘ (fun s : Submission =>
      if (s.id == sid) = true then
        { s with
          notification_sent := some b,
          notification_sent_at := if b then some now else none,
          updated_at := now }
      else s)) = (fun s : Submission => s.id == sid) := by
    funext s
    simp only [Function.comp_apply]
    by_cases hx : (s.id == sid) = true
    · rw [if_pos hx]
    · rw [if_neg hx]
  rw [hpf]
  cases hf : db.submissions.find? (fun s => s.id == sid) with
  | none => rfl
  | some a =>
    have ha := List.find?_some hf
    simp only [Option.map_some']
    rw [if_pos ha]

/-- The notification-status write never touches status, url or decline
reason, so it preserves terminal consistency. -/
theorem update_notification_inv (env : Env) (db : DB) (sid : String) (b : Bool) (now : Nat)
    (h : DBInv db) : DBInv (update_notification_status env db sid b now) := by
  unfold update_notification_status
  split
  · exact h
  · split
    · exact h
    · intro s hs
      simp only [List.mem_map] at hs
      obtain ⟨a, ha, rfl⟩ := hs
      by_cases hid : (a.id == sid) = true
      · rw [if_pos hid]
        exact h a ha
      · rw [if_neg hid]
        exact h a ha

/-- C8: a transport failure while delivering the Telegram message is caught
and converted into a structured sent:false result carrying the network error
text, and the notification entry point returns normally (statusCode 200)
for every environment, store and collaborator outcome — it never raises
past its own boundary. -/
theorem c8_notification_boundary (env : Env) (o : Oracles) (db : DB)
    (vid sid st message m tok : String)
    (htok : env.telegram_token = some tok)
    (hnet : o.tgSend = .networkError m) :
    ((send_telegram_response env o db vid sid st message).sent = false
      ∧ (send_telegram_response env o db vid sid st message).error
          = some ("Network error: " ++ m))
    ∧ ∀ (env2 : Env) (o2 : Oracles) (db2 : DB) (ev2 : REvent) (now2 : Nat),
        ∃ out, resp_lambda_handler env2 o2 db2 ev2 now2 = .ok out
          ∧ out.response.statusCode = 200 := by
  have hs : send_telegram_response env o db vid sid st message
      = { sent := false, error := some ("Network error: " ++ m)
        , chat_id := vid, st := st } := by
    unfold send_telegram_response
    simp only [htok, hnet]
  refine ⟨⟨by rw [hs], by rw [hs]⟩, ?_⟩
  intro env2 o2 db2 ev2 now2
  exact ⟨_, rfl, rfl⟩

/-- C10: the notification-status write sets notification_sent to the
delivery boolean and notification_sent_at to the current time exactly when
the message was sent, else to NULL, so sent_at is non-null iff sent is
true on the updated row. -/
theorem c10_notification_timestamp (env : Env) (db : DB) (sid : String) (b : Bool)
    (now : Nat) (dbu cu : String) (sub0 : Submission)
    (hdb : env.database_url = some dbu) (hcv : convert_database_url dbu = .ok cu)
    (hsub : db.submissions.find? (fun s => s.id == sid) = some sub0) :
    (update_notification_status env db sid b now).submissions.find? (fun s => s.id == sid)
      = some { sub0 with
                notification_sent := some b,
                notification_sent_at := if b then some now else none,
                updated_at := now }
    ∧ ∀ s2, (update_notification_status env db sid b now).submissions.find?
          (fun s => s.id == sid) = some s2 →
        (s2.notification_sent_at.isSome ↔ s2.notification_sent = some true) := by
  have h1 : (update_notification_status env db sid b now).submissions.find?
      (fun s => s.id == sid)
      = some { sub0 with
                notification_sent := some b,
                notification_sent_at := if b then some now else none,
                updated_at := now } := by
    rw [find?_update_notification env db sid b now dbu cu hdb hcv, hsub]
    rfl
  refine ⟨h1, ?_⟩
  intro s2 h2
  rw [h1] at h2
  simp only [Option.some.injEq] at h2
  subst h2
  cases b with
  | false => simp
  | true => simp

/-- Concrete fixture: a fully configured notification environment. -/
def rEnv : Env := { telegram_token := some "tok", database_url := some "postgresql://db" }

/-- Concrete fixture: the Telegram send times out. -/
def rOrNet : Oracles := { tgSend := .networkError "timeout" }

/-- Concrete fixture: a notification trigger payload. -/
def rEv : REvent := { submission_id := "s1", volunteer_id := "v1", st := "success", message := "m" }

/-- C8 witness: the boundary statement evaluated on a concrete timeout. -/
theorem c8_notification_boundary_witness :
    (send_telegram_response rEnv rOrNet Processor.exDB "v1" "s1" "success" "m").sent = false
    ∧ (send_telegram_response rEnv rOrNet Processor.exDB "v1" "s1" "success" "m").error
        = some ("Network error: " ++ "timeout")
    ∧ (resp_lambda_handler rEnv rOrNet Processor.exDB rEv 9).isOk = true := by
  obtain ⟨⟨h1, h2⟩, h3⟩ := c8_notification_boundary rEnv rOrNet Processor.exDB
    "v1" "s1" "success" "m" "timeout" "tok" rfl rfl
  obtain ⟨out, h4, h5⟩ := h3 rEnv rOrNet Processor.exDB rEv 9
  exact ⟨h1, h2, by rw [h4]; rfl⟩

/-- C10 witness: the timestamp invariant evaluated on a concrete sent and a
concrete unsent delivery. -/
theorem c10_notification_timestamp_witness :
    ((update_notification_status rEnv Processor.exDB "s1" true 9).submissions.find?
        (fun s => s.id == "s1")
      = some { Processor.exSub with
                notification_sent := some true,
                notification_sent_at := if true then some 9 else none,
                updated_at := 9 })
    ∧ ∀ s2, (update_notification_status rEnv Processor.exDB "s1" true 9).submissions.find?
          (fun s => s.id == "s1") = some s2 →
        (s2.notification_sent_at.isSome ↔ s2.notification_sent = some true) :=
  c10_notification_timestamp rEnv Processor.exDB "s1" true 9
    "postgresql://db" "postgresql://db" Processor.exSub rfl rfl rfl

end Responder

/-- C6: every Submission row keeps the terminal-consistency invariant —
PENDING_REVIEW implies a non-empty video_platform_url and DECLINED implies a
non-empty decline_reason — across every status write the pipeline performs:
the intake entry point (PROCESSING inserts), the publish-stage entry point
(PENDING_REVIEW and DECLINED writes), and the notification-status write. -/
theorem c6_terminal_consistency :
    (∀ (env : Processor.Env) (o : Processor.Oracles) (db : DB) (ev : Processor.PEvent)
        (now : Nat), DBInv db → DBInv (Processor.lambda_handler env o db ev now).db)
    ∧ (∀ (env : Webhook.Env) (o : Webhook.Oracles) (db : DB)
        (update : Option Webhook.Message) (uuid : String) (now : Nat), DBInv db →
        DBInv (Webhook.process_telegram_update env o db update uuid now).1)
    ∧ (∀ (env : Responder.Env) (db : DB) (sid : String) (b : Bool) (now : Nat), DBInv db →
        DBInv (Responder.update_notification_status env db sid b now)) :=
  ⟨fun env o db ev now h => Processor.handler_inv env o db ev now h,
   fun env o db update uuid now h => Webhook.process_update_inv env o db update uuid now h,
   fun env db sid b now h => Responder.update_notification_inv env db sid b now h⟩

/-- C6 witness: the three preservation statements evaluated on concrete
invariant-satisfying stores. -/
theorem c6_terminal_consistency_witness :
    DBInv (Processor.lambda_handler Processor.exEnv Processor.exOraclesUploadFail
      Processor.exDB Processor.exEv 5).db
    ∧ DBInv (Webhook.process_telegram_update Webhook.wEnv Webhook.wOr Webhook.wDBreg
        (some Webhook.wMsgVideo) "uuid1" 3).1
    ∧ DBInv (Responder.update_notification_status Responder.rEnv Processor.exDB "s1" true 9) :=
  ⟨c6_terminal_consistency.1 Processor.exEnv Processor.exOraclesUploadFail Processor.exDB
      Processor.exEv 5 (by decide),
   c6_terminal_consistency.2.1 Webhook.wEnv Webhook.wOr Webhook.wDBreg
      (some Webhook.wMsgVideo) "uuid1" 3 (by decide),
   c6_terminal_consistency.2.2 Responder.rEnv Processor.exDB "s1" true 9 (by decide)⟩

end TelegramLambda
